import Mathlib

/-!
Shallow embedding of the `weeg-storage` package (two TypeScript files:
`src/StorageItem.ts` and the unnamed module defining `GlobalStorageObserver`)
and proofs about the claims of its specification.

Modelling conventions:
  - The host browser storage (`browser.storage`) is modelled by `HostState`:
    three named areas (`local`, `sync`, `managed`), each an association list of
    key/value pairs plus a `readThrows` flag modelling a host read that throws
    (e.g. reading uninitialized managed storage).
  - Availability of the host API (`browser.storage` being defined) is a
    separate `Bool` passed to module-load / construction code.
  - JavaScript `undefined` is modelled by `Option.none`; a thrown exception
    that escapes a function is modelled by `Except.error`; a function that
    cannot throw outward is total.
  - Observer callbacks are modelled by an id together with a behaviour
    `throws : α → Bool` saying whether the callback throws when invoked with a
    given value; the dispatch code returns the list of ids actually invoked.
-/

namespace WeegStorage

/-- One host storage area: its stored data (`area.get`/`area.set`/`area.remove`
operate on it) and whether a read of it currently throws (uninitialized managed
storage is the documented case in `StorageItem.getRawValue`). -/
structure AreaState (α : Type) where
  data : List (String × α)
  readThrows : Bool
deriving Repr

/-- Reference to one of the three host storage areas, as obtained from
`browser.storage.local` / `browser.storage.sync` / `browser.storage.managed`
in the constructor switch of `StorageItem`. -/
inductive AreaRef
  | localA
  | syncA
  | managedA
deriving DecidableEq, Repr

/-- The host `browser.storage` object: the three named areas. -/
structure HostState (α : Type) where
  localArea : AreaState α
  syncArea : AreaState α
  managedArea : AreaState α
deriving Repr

/-- Dereference an `AreaRef` to the current state of that area. -/
def HostState.deref (host : HostState α) : AreaRef → AreaState α
  | .localA => host.localArea
  | .syncA => host.syncArea
  | .managedA => host.managedArea

/-- Update one area of the host state. -/
def HostState.updateArea (host : HostState α) (r : AreaRef)
    (f : AreaState α → AreaState α) : HostState α :=
  match r with
  | .localA => { host with localArea := f host.localArea }
  | .syncA => { host with syncArea := f host.syncArea }
  | .managedA => { host with managedArea := f host.managedArea }

/-- Remove every binding of `k` from an association list. -/
def eraseKey (data : List (String × α)) (k : String) : List (String × α) :=
  data.filter (fun p => p.1 != k)

/-- Host `area.set({ [key]: value })`: store `value` under `key`. -/
def AreaState.setKey (st : AreaState α) (k : String) (v : α) : AreaState α :=
  { st with data := (k, v) :: eraseKey st.data k }

/-- Host `area.remove(key)`: delete the binding of `key`. -/
def AreaState.removeKey (st : AreaState α) (k : String) : AreaState α :=
  { st with data := eraseKey st.data k }

/-- Host `area.get(key)` followed by indexing `data[key]`: throws when the
area's read currently throws, otherwise yields the stored value or
`none` (JavaScript `undefined`) when the key is absent. -/
def AreaState.get (st : AreaState α) (key : String) : Except String (Option α) :=
  if st.readThrows then Except.error "storage read error"
  else Except.ok (st.data.lookup key)

/-- The `StorageItem` class state after construction (`src/StorageItem.ts`):
`key`, `areaName`, `defaultValue` are the public readonly fields; `area` is the
private area reference, `none` exactly when construction returned early because
`browser.storage` was unavailable (degraded mode); `listenerRegistered` records
whether the constructor reached `browser.storage.onChanged.addListener`. -/
structure StorageItem (α : Type) where
  key : String
  areaName : String
  defaultValue : α
  area : Option AreaRef
  listenerRegistered : Bool
deriving Repr

/-- The `StorageItem` constructor. Mirrors the source order: the fields
`key`, `defaultValue`, `areaName` are assigned first; if `browser.storage` is
unavailable the constructor logs a warning and returns (degraded mode, with the
raw `area` string left in `areaName` and no listener registered); otherwise the
switch on `area` binds the area reference, re-assigns `areaName`, throws
`Unknown storage area` on any other string, and finally registers the change
listener. -/
def StorageItem.construct (key : String) (defaultValue : α) (area : String)
    (storageAvailable : Bool) : Except String (StorageItem α) :=
  if !storageAvailable then
    -- console.warn: storage will not work
    Except.ok { key := key, areaName := area, defaultValue := defaultValue,
                area := none, listenerRegistered := false }
  else if area = "local" then
    Except.ok { key := key, areaName := "local", defaultValue := defaultValue,
                area := some AreaRef.localA, listenerRegistered := true }
  else if area = "sync" then
    Except.ok { key := key, areaName := "sync", defaultValue := defaultValue,
                area := some AreaRef.syncA, listenerRegistered := true }
  else if area = "managed" then
    Except.ok { key := key, areaName := "managed", defaultValue := defaultValue,
                area := some AreaRef.managedA, listenerRegistered := true }
  else
    Except.error ("Unknown storage area: " ++ area)

/-- `StorageItem.getRawValue`: returns `undefined` when the item has no bound
area (degraded mode) or when the host read throws (the try/catch swallows the
error); otherwise the stored value, or `undefined` when absent. -/
def StorageItem.getRawValue (it : StorageItem α) (host : HostState α) : Option α :=
  match it.area with
  | none => none
  | some r =>
      match (host.deref r).get it.key with
      | Except.error _ => none
      | Except.ok v => v

/-- `StorageItem.hasValue`: whether the raw value is not `undefined`. -/
def StorageItem.hasValue (it : StorageItem α) (host : HostState α) : Bool :=
  (it.getRawValue host).isSome

/-- `StorageItem.getValue`: the raw value when defined, else the default. -/
def StorageItem.getValue (it : StorageItem α) (host : HostState α) : α :=
  match it.getRawValue host with
  | none => it.defaultValue
  | some value => value

/-- `StorageItem.setValue`: throws `Cannot set managed storage` when
`areaName` is `managed` (before any host call); in degraded mode returns
without writing; otherwise writes the value under the key. An `Except.error`
result models the thrown exception, with the host state unmodified. -/
def StorageItem.setValue (it : StorageItem α) (value : α) (host : HostState α) :
    Except String (HostState α) :=
  if it.areaName = "managed" then Except.error "Cannot set managed storage"
  else
    match it.area with
    | none => Except.ok host
    | some r => Except.ok (host.updateArea r (fun st => st.setKey it.key value))

/-- `StorageItem.clearValue`: throws `Cannot clear managed storage` when
`areaName` is `managed` (before any host call); in degraded mode returns
without removing; otherwise removes the key. -/
def StorageItem.clearValue (it : StorageItem α) (host : HostState α) :
    Except String (HostState α) :=
  if it.areaName = "managed" then Except.error "Cannot clear managed storage"
  else
    match it.area with
    | none => Except.ok host
    | some r => Except.ok (host.updateArea r (fun st => st.removeKey it.key))

/-- One entry of the host change event mapping: `{ oldValue, newValue }`,
either of which may be `undefined`. -/
structure StorageChange (α : Type) where
  oldValue : Option α
  newValue : Option α
deriving Repr

/-- A registered observer callback: an identity (Set membership in the source
is by function identity) and whether the callback throws when invoked with a
given value. -/
structure Observer (α : Type) where
  id : Nat
  throws : α → Bool

/-- `this.observers.forEach((observer) => observer(value))` wrapped in the
try/catch of the change listener: callbacks are invoked in order; an exception
thrown by one is the exception of the whole `forEach` call, so iteration stops
with the throwing callback and the `catch` logs the error. Returns the ids
invoked (in order) and whether an error was caught and logged. -/
def runObservers (observers : List (Observer α)) (value : α) : List Nat × Bool :=
  match observers with
  | [] => ([], false)
  | o :: rest =>
      if o.throws value then ([o.id], true)
      else
        let r := runObservers rest value
        (o.id :: r.1, r.2)

/-- Observable outcome of one delivery of a host change event to one item:
the value dispatched to the item's `onChanged` event sink (`none` when the
event was filtered out), the observer callbacks invoked (each with that same
value), and whether an observer exception was caught and logged. The change
listener never lets an exception escape, so this is a total function. -/
structure DispatchResult (α : Type) where
  sinkValue : Option α
  invoked : List Nat
  errorLogged : Bool
deriving Repr

/-- The empty outcome: nothing dispatched, nobody invoked, nothing logged. -/
def DispatchResult.empty : DispatchResult α := ⟨none, [], false⟩

/-- The change listener registered by the `StorageItem` constructor, applied to
one host event `(changes, areaName)`. No listener runs when none was registered
(degraded construction). Guard clauses as in the source: return when the item's
key is not in `changes` (the `key in changes` test together with the falsy
check on `changes[key]` is the association-list lookup), return when the event
area differs from the item's bound area; otherwise compute the effective value
(`newValue` when defined, else the default), dispatch it to `onChanged`, and
run the observer callbacks inside the try/catch. -/
def StorageItem.handleChange (it : StorageItem α) (observers : List (Observer α))
    (changes : List (String × StorageChange α)) (eventAreaName : String) :
    DispatchResult α :=
  if !it.listenerRegistered then DispatchResult.empty
  else
    match changes.lookup it.key with
    | none => DispatchResult.empty
    | some change =>
        if eventAreaName ≠ it.areaName then DispatchResult.empty
        else
          let value := change.newValue.getD it.defaultValue
          let r := runObservers observers value
          ⟨some value, r.1, r.2⟩

/-- State of one item's subscription machinery: the `observers` Set (callback
ids, insertion order, at most one entry per id) and the pending current-value
reports scheduled by `observe` via `this.getValue().then(callback)` that have
not yet resolved. -/
structure ObsState where
  observers : List Nat
  pendingReports : List Nat
deriving Repr

/-- `StorageItem.observe(callback, reportCurrentValue)`: when
`reportCurrentValue` is true, schedules `getValue().then(callback)` (a pending
report, resolved later by the event loop), then adds the callback to the
observers Set (a Set add: no duplicate entry). -/
def observe (s : ObsState) (cb : Nat) (reportCurrentValue : Bool) : ObsState :=
  { observers := if cb ∈ s.observers then s.observers else s.observers ++ [cb],
    pendingReports :=
      if reportCurrentValue then s.pendingReports ++ [cb] else s.pendingReports }

/-- `StorageItem.unobserve(callback)`: deletes the callback from the observers
Set. Pending current-value reports are promises already scheduled; nothing
cancels them. -/
def unobserve (s : ObsState) (cb : Nat) : ObsState :=
  { s with observers := s.observers.filter (fun x => x != cb) }

/-- The event loop resolving every pending `getValue().then(callback)`: each
scheduled callback is invoked once with the current effective value. Returns
the invocations performed (callback id, value) and the drained state. -/
def runPendingReports (it : StorageItem α) (host : HostState α) (s : ObsState) :
    List (Nat × α) × ObsState :=
  (s.pendingReports.map (fun cb => (cb, it.getValue host)), { s with pendingReports := [] })

/-- Module-scope initialization of the `GlobalStorageObserver` module
(`src/unnamed/part_000`): it evaluates
`browser.storage.onChanged.addListener(...)` unconditionally. When
`browser.storage` is undefined (host storage API unavailable), the property
access `browser.storage.onChanged` throws a TypeError at module load;
otherwise exactly one listener is registered (`Except.ok true`). -/
def GlobalStorageObserver.moduleInit (storageAvailable : Bool) : Except String Bool :=
  if storageAvailable then Except.ok true
  else Except.error "TypeError: browser.storage is undefined"

/-! Concrete instances used by witnesses and counterexamples. -/

/-- A local-area item as built by `new StorageItem("pref", 0, "local")` with the
host API available. -/
def itemLocal : StorageItem Nat :=
  ⟨"pref", "local", 0, some AreaRef.localA, true⟩

/-- A managed-area item as built by `new StorageItem("pref", 0, "managed")`
with the host API available. -/
def itemManaged : StorageItem Nat :=
  ⟨"pref", "managed", 0, some AreaRef.managedA, true⟩

/-- The degraded item built by `new StorageItem("k", 0, "managed")` when
`browser.storage` is unavailable. -/
def itemDegradedManaged : StorageItem Nat :=
  ⟨"k", "managed", 0, none, false⟩

/-- A host whose three areas are empty and readable. -/
def natHost : HostState Nat :=
  ⟨⟨[], false⟩, ⟨[], false⟩, ⟨[], false⟩⟩

/-- A host whose local area holds `pref ↦ 9`. -/
def localHost : HostState Nat :=
  ⟨⟨[("pref", 9)], false⟩, ⟨[], false⟩, ⟨[], false⟩⟩

/-- A host whose managed area throws on read (uninitialized managed storage). -/
def throwingHost : HostState Nat :=
  ⟨⟨[], false⟩, ⟨[], false⟩, ⟨[("pref", 7)], true⟩⟩

/-- Sanity: `itemLocal` is exactly what the constructor produces. -/
lemma construct_itemLocal :
    StorageItem.construct "pref" (0 : Nat) "local" true = Except.ok itemLocal := rfl

/-- Sanity: `itemManaged` is exactly what the constructor produces. -/
lemma construct_itemManaged :
    StorageItem.construct "pref" (0 : Nat) "managed" true = Except.ok itemManaged := rfl

/-- Sanity: `itemDegradedManaged` is exactly what the constructor produces
when the host API is unavailable. -/
lemma construct_itemDegradedManaged :
    StorageItem.construct "k" (0 : Nat) "managed" false = Except.ok itemDegradedManaged := rfl

/-- Splitting `runObservers` at the first throwing callback: every callback
before it runs, it runs and throws, and iteration stops there with the error
flagged as caught and logged. -/
lemma runObservers_split (pre : List (Observer α)) (o : Observer α)
    (post : List (Observer α)) (v : α)
    (hpre : ∀ p ∈ pre, p.throws v = false) (ho : o.throws v = true) :
    runObservers (pre ++ o :: post) v = (pre.map Observer.id ++ [o.id], true) := by
  induction pre with
  | nil => simp [runObservers, ho]
  | cons p rest ih =>
      have hp : p.throws v = false := hpre p (by simp)
      have hrest : ∀ q ∈ rest, q.throws v = false := fun q hq => hpre q (by simp [hq])
      simp [runObservers, hp, ih hrest]

/-- C1 counterexample: an item with two registered observers receives a
matching change (key `pref`, new value `5`, area `local`); the first observer
throws. Only observer `0` is invoked — observer `1`, still in the set, is never
called, contradicting the claim that every remaining callback is invoked. -/
theorem observer_exception_counterexample :
    (itemLocal.handleChange
        [⟨0, fun _ => true⟩, ⟨1, fun _ => false⟩]
        [("pref", ⟨none, some 5⟩)] "local").invoked = [0] ∧
    1 ∉ (itemLocal.handleChange
        [⟨0, fun _ => true⟩, ⟨1, fun _ => false⟩]
        [("pref", ⟨none, some 5⟩)] "local").invoked := by
  constructor
  · rfl
  · decide

/-- C1 (amended): when a matching change is dispatched and an observer
callback throws, the exception is caught and logged and does not escape the
change listener, and the `onChanged` sink and every callback before the
throwing one are invoked with the effective new value — but the callbacks
after the throwing one are not invoked, because the exception aborts the
`forEach` iteration (the try/catch wraps the whole loop, not each call). -/
theorem observer_exception_stops_iteration (it : StorageItem α)
    (pre post : List (Observer α)) (o : Observer α)
    (changes : List (String × StorageChange α)) (change : StorageChange α)
    (hreg : it.listenerRegistered = true)
    (hkey : changes.lookup it.key = some change)
    (hpre : ∀ p ∈ pre, p.throws (change.newValue.getD it.defaultValue) = false)
    (ho : o.throws (change.newValue.getD it.defaultValue) = true) :
    it.handleChange (pre ++ o :: post) changes it.areaName =
      ⟨some (change.newValue.getD it.defaultValue),
       pre.map Observer.id ++ [o.id], true⟩ := by
  simp [StorageItem.handleChange, hreg, hkey, runObservers_split pre o post _ hpre ho]

/-- C1 witness: three observers, the middle one throws; the first and the
thrower are invoked with the effective value `5`, the error is logged, and the
third is skipped. -/
theorem observer_exception_stops_iteration_witness :
    itemLocal.handleChange
        [⟨0, fun _ => false⟩, ⟨1, fun _ => true⟩, ⟨2, fun _ => false⟩]
        [("pref", ⟨none, some 5⟩)] "local" = ⟨some 5, [0, 1], true⟩ :=
  observer_exception_stops_iteration itemLocal
    [⟨0, fun _ => false⟩] [⟨2, fun _ => false⟩] ⟨1, fun _ => true⟩
    [("pref", ⟨none, some 5⟩)] ⟨none, some 5⟩ rfl rfl
    (by intro p hp; rw [List.mem_singleton] at hp; subst hp; rfl) rfl

/-- C2 counterexample: with the host storage API unavailable, module
initialization of the broadcaster throws (the unguarded property access
`browser.storage.onChanged` fails), rather than completing as a silent
no-op. -/
theorem broadcaster_init_counterexample :
    GlobalStorageObserver.moduleInit false =
      Except.error "TypeError: browser.storage is undefined" := rfl

/-- C2 (amended): when the host storage API is available, module
initialization registers the listener and completes; when it is unavailable,
module initialization raises a TypeError — registration is not a silent
no-op. -/
theorem broadcaster_init_amended :
    GlobalStorageObserver.moduleInit true = Except.ok true ∧
    (GlobalStorageObserver.moduleInit false).isOk = false :=
  ⟨rfl, rfl⟩

/-- C3 counterexample: with the host API unavailable, constructing an item
with the unrecognized area string `bogus` succeeds (the degraded-mode early
return happens before the area switch), contradicting the claim that an
invalid area always throws. -/
theorem invalid_area_counterexample :
    (StorageItem.construct "k" (0 : Nat) "bogus" false).isOk = true := rfl

/-- C3 (amended): with the host storage API available, construction with an
area string outside local/sync/managed throws the invalid-area error
synchronously; with the host API unavailable, the degraded-mode early return
skips the area switch and construction succeeds without validating the
area. -/
theorem invalid_area_throws (key : String) (d : α) (area : String)
    (h1 : area ≠ "local") (h2 : area ≠ "sync") (h3 : area ≠ "managed") :
    StorageItem.construct key d area true =
      Except.error ("Unknown storage area: " ++ area) ∧
    (StorageItem.construct key d area false).isOk = true := by
  constructor
  · simp [StorageItem.construct, h1, h2, h3]
  · rfl

/-- C3 witness: the area string `bogus` throws when the host API is available
and is accepted when it is not. -/
theorem invalid_area_throws_witness :
    StorageItem.construct "k" (0 : Nat) "bogus" true =
      Except.error ("Unknown storage area: " ++ "bogus") ∧
    (StorageItem.construct "k" (0 : Nat) "bogus" false).isOk = true :=
  invalid_area_throws "k" 0 "bogus" (by decide) (by decide) (by decide)

/-- C4: when the host read of the item's bound area throws, the error is
swallowed by `getRawValue`: `hasValue` is false and `getValue` is the default.
Both are total functions of the model — no error escapes. -/
theorem read_failure_swallowed (it : StorageItem α) (host : HostState α)
    (r : AreaRef) (ha : it.area = some r)
    (hthrow : (host.deref r).readThrows = true) :
    it.hasValue host = false ∧ it.getValue host = it.defaultValue := by
  have hraw : it.getRawValue host = none := by
    simp [StorageItem.getRawValue, ha, AreaState.get, hthrow]
  constructor
  · simp [StorageItem.hasValue, hraw]
  · simp [StorageItem.getValue, hraw]

/-- C4 witness: a managed item over a host whose managed area throws on read
(even though it holds `pref ↦ 7`): no value, default returned. -/
theorem read_failure_swallowed_witness :
    itemManaged.hasValue throwingHost = false ∧
    itemManaged.getValue throwingHost = itemManaged.defaultValue :=
  read_failure_swallowed itemManaged throwingHost AreaRef.managedA rfl rfl

/-- C5: for an item constructed over area local or sync with the host API
available and readable areas, `setValue v` succeeds and a subsequent
`getValue` on the resulting host state returns `v`. -/
theorem setValue_getValue_roundtrip (key : String) (d v : α) (name : String)
    (host : HostState α) (it : StorageItem α)
    (hname : name = "local" ∨ name = "sync")
    (hcon : StorageItem.construct key d name true = Except.ok it)
    (hlocal : host.localArea.readThrows = false)
    (hsync : host.syncArea.readThrows = false) :
    Except.map (fun h => it.getValue h) (it.setValue v host) = Except.ok v := by
  rcases hname with rfl | rfl <;>
  · simp [StorageItem.construct] at hcon
    subst hcon
    simp [StorageItem.setValue, StorageItem.getValue, StorageItem.getRawValue,
      HostState.updateArea, HostState.deref, AreaState.setKey, AreaState.get,
      hlocal, hsync, Except.map, List.lookup]

/-- C5 witness: writing `42` to the local item and reading it back over the
empty host yields `42`. -/
theorem setValue_getValue_roundtrip_witness :
    Except.map (fun h => itemLocal.getValue h) (itemLocal.setValue 42 natHost) =
      Except.ok 42 :=
  setValue_getValue_roundtrip "pref" 0 42 "local" natHost itemLocal
    (Or.inl rfl) rfl rfl rfl

/-- C6: on any item whose bound area name is `managed`, `setValue` and
`clearValue` throw the not-permitted errors. The guard is the first statement
of both methods, before any host call: an `Except.error` result carries no
updated host state, so the store is unchanged. -/
theorem managed_write_guard (it : StorageItem α) (host : HostState α) (v : α)
    (h : it.areaName = "managed") :
    it.setValue v host = Except.error "Cannot set managed storage" ∧
    it.clearValue host = Except.error "Cannot clear managed storage" := by
  constructor
  · simp [StorageItem.setValue, h]
  · simp [StorageItem.clearValue, h]

/-- C6 witness: the managed item rejects both write and clear on the empty
host. -/
theorem managed_write_guard_witness :
    itemManaged.setValue 5 natHost = Except.error "Cannot set managed storage" ∧
    itemManaged.clearValue natHost = Except.error "Cannot clear managed storage" :=
  managed_write_guard itemManaged natHost 5 rfl

/-- C7: a change event whose area name differs from the item's bound area, or
whose changed-keys mapping does not contain the item's key, dispatches
nothing: no `onChanged` value, no observer invocation, nothing logged. -/
theorem filtered_event_dispatches_nothing (it : StorageItem α)
    (observers : List (Observer α)) (changes : List (String × StorageChange α))
    (eventAreaName : String)
    (h : eventAreaName ≠ it.areaName ∨ changes.lookup it.key = none) :
    it.handleChange observers changes eventAreaName = DispatchResult.empty := by
  rcases h with h | h
  · cases hreg : it.listenerRegistered
    · simp [StorageItem.handleChange, hreg]
    · cases hl : changes.lookup it.key
      · simp [StorageItem.handleChange, hreg, hl]
      · simp [StorageItem.handleChange, hreg, hl, h]
  · cases hreg : it.listenerRegistered <;>
      simp [StorageItem.handleChange, hreg, h]

/-- C7 witness: an event for the right key but area `sync` does not trigger
the local item, even with an observer registered. -/
theorem filtered_event_dispatches_nothing_witness :
    itemLocal.handleChange [⟨0, fun _ => false⟩]
      [("pref", ⟨none, some 5⟩)] "sync" = DispatchResult.empty :=
  filtered_event_dispatches_nothing itemLocal [⟨0, fun _ => false⟩]
    [("pref", ⟨none, some (5 : Nat)⟩)] "sync" (Or.inl (by decide))

/-- Fields of any successfully constructed item: the key and default value are
the constructor arguments. -/
lemma construct_ok_fields (key : String) (d : α) (name : String) (avail : Bool)
    (it : StorageItem α)
    (h : StorageItem.construct key d name avail = Except.ok it) :
    it.key = key ∧ it.defaultValue = d := by
  unfold StorageItem.construct at h
  split_ifs at h
  all_goals injection h with h2
  all_goals subst h2
  all_goals exact ⟨rfl, rfl⟩

/-- C8: for an item constructed with the host API available, over a readable
bound area, `getValue` returns the value stored under its key when present and
the default otherwise; in particular with no stored value it returns the
default. -/
theorem getValue_returns_stored_or_default (key : String) (d : α)
    (name : String) (host : HostState α) (it : StorageItem α) (r : AreaRef)
    (hcon : StorageItem.construct key d name true = Except.ok it)
    (href : it.area = some r)
    (hread : (host.deref r).readThrows = false) :
    it.getValue host = ((host.deref r).data.lookup key).getD d ∧
    ((host.deref r).data.lookup key = none → it.getValue host = d) := by
  obtain ⟨hk, hd⟩ := construct_ok_fields key d name true it hcon
  have hraw : it.getRawValue host = (host.deref r).data.lookup key := by
    simp [StorageItem.getRawValue, href, AreaState.get, hread, hk]
  have hmain : it.getValue host = ((host.deref r).data.lookup key).getD d := by
    cases hl : (host.deref r).data.lookup key <;>
      simp [StorageItem.getValue, hraw, hl, hd]
  exact ⟨hmain, fun h0 => by rw [hmain, h0]; rfl⟩

/-- C8 witness: over a host whose local area holds `pref ↦ 9`, the local item
reads `9`; the no-stored-value implication holds vacuously there. -/
theorem getValue_returns_stored_or_default_witness :
    itemLocal.getValue localHost =
      ((localHost.deref AreaRef.localA).data.lookup "pref").getD 0 ∧
    ((localHost.deref AreaRef.localA).data.lookup "pref" = none →
      itemLocal.getValue localHost = 0) :=
  getValue_returns_stored_or_default "pref" 0 "local" localHost itemLocal
    AreaRef.localA rfl rfl rfl

/-- C9: an item constructed for area `managed` while the host API was
unavailable is in degraded mode (`area = none`), yet `setValue` and
`clearValue` still throw the not-permitted errors: the managed guard on
`areaName` runs before the degraded-mode no-op return. -/
theorem degraded_managed_guard (key : String) (d v : α) (host : HostState α)
    (it : StorageItem α)
    (hcon : StorageItem.construct key d "managed" false = Except.ok it) :
    it.area = none ∧
    it.setValue v host = Except.error "Cannot set managed storage" ∧
    it.clearValue host = Except.error "Cannot clear managed storage" := by
  simp [StorageItem.construct] at hcon
  subst hcon
  refine ⟨rfl, ?_, ?_⟩
  · simp [StorageItem.setValue]
  · simp [StorageItem.clearValue]

/-- C9 witness: the degraded managed item still rejects write and clear. -/
theorem degraded_managed_guard_witness :
    itemDegradedManaged.area = none ∧
    itemDegradedManaged.setValue 5 natHost =
      Except.error "Cannot set managed storage" ∧
    itemDegradedManaged.clearValue natHost =
      Except.error "Cannot clear managed storage" :=
  degraded_managed_guard "k" 0 5 natHost itemDegradedManaged rfl

/-- Dispatching a change to an empty observer list invokes nobody, whatever
the event. -/
lemma handleChange_nil_invoked (it : StorageItem α)
    (changes : List (String × StorageChange α)) (eventAreaName : String) :
    (it.handleChange [] changes eventAreaName).invoked = [] := by
  cases hreg : it.listenerRegistered
  · simp [StorageItem.handleChange, hreg, DispatchResult.empty]
  · cases hl : changes.lookup it.key
    · simp [StorageItem.handleChange, hreg, hl, DispatchResult.empty]
    · by_cases harea : eventAreaName ≠ it.areaName
      · simp [StorageItem.handleChange, hreg, hl, harea, DispatchResult.empty]
      · simp [StorageItem.handleChange, hreg, hl, harea, runObservers,
          DispatchResult.empty]

/-- C10: `observe cb true` followed by `unobserve cb` before the scheduled
current-value read resolves: the pending report survives and invokes `cb`
exactly once with the current effective value, while `cb` is gone from the
observer set, so no change-driven dispatch (whatever behaviour `f` assigns to
registered ids) ever invokes it. -/
theorem unobserve_keeps_pending_report (it : StorageItem α)
    (host : HostState α) (cb : Nat) :
    (runPendingReports it host
        (unobserve (observe ⟨[], []⟩ cb true) cb)).1 =
      [(cb, it.getValue host)] ∧
    cb ∉ (unobserve (observe ⟨[], []⟩ cb true) cb).observers ∧
    ∀ (f : Nat → Observer α) (changes : List (String × StorageChange α))
      (eventAreaName : String),
      (it.handleChange
          ((unobserve (observe ⟨[], []⟩ cb true) cb).observers.map f)
          changes eventAreaName).invoked = [] := by
  have hobs : (unobserve (observe (⟨[], []⟩ : ObsState) cb true) cb).observers = [] := by
    simp [observe, unobserve, List.filter]
  refine ⟨?_, ?_, ?_⟩
  · simp [runPendingReports, observe, unobserve]
  · rw [hobs]; simp
  · intro f changes eventAreaName
    rw [hobs]
    simpa using handleChange_nil_invoked it changes eventAreaName

end WeegStorage
